import Mathlib

/-!
Shallow embedding of the core of the hotel-food-delivery backend:

* geolocation math (`backend/src/utils/geolocation.js`): `toRad`,
  `toDegrees`, `calculateDistance` (haversine), `getBoundingBox`;
* proximity search (`hotelController.getNearbyHotels`);
* order pricing and creation (`orderController.createOrder`);
* the status-update, cancel and review endpoints
  (`orderController.updateOrderStatus`, `orderController.cancelOrder`,
  `userController.submitReview`) together with the route middleware
  (`authorize` role gate, `orderRules.updateStatus` status enum).

JavaScript numbers are modelled by exact reals where trigonometry is
involved and by rationals for money; `Math.round x` is `⌊x + 1/2⌋`.
`Math.sqrt` and `Math.asin` return NaN on negative / out-of-range input
where Lean's `Real.sqrt` / `Real.arcsin` clamp; no theorem below depends
on inputs in that regime.
-/

namespace HotelMM

open scoped Classical

/-- Degrees to radians, from `geolocation.js` `toRad`. -/
noncomputable def toRad (degrees : ℝ) : ℝ := degrees * (Real.pi / 180)

/-- Radians to degrees, from `geolocation.js` `toDegrees`. -/
noncomputable def toDegrees (radians : ℝ) : ℝ := radians * (180 / Real.pi)

/-- JavaScript `Math.atan2 y x`, as the argument of the complex number
`x + y*I` (range `(-π, π]`, and `atan2 0 0 = 0`, as in JS). -/
noncomputable def atan2 (y x : ℝ) : ℝ := Complex.arg ⟨x, y⟩

/-- Haversine distance in meters, from `geolocation.js`
`calculateDistance(lat1, lon1, lat2, lon2)`. -/
noncomputable def calculateDistance (lat1 lon1 lat2 lon2 : ℝ) : ℝ :=
  let R : ℝ := 6371
  let dLat := toRad (lat2 - lat1)
  let dLon := toRad (lon2 - lon1)
  let a := Real.sin (dLat / 2) * Real.sin (dLat / 2) +
    Real.cos (toRad lat1) * Real.cos (toRad lat2) *
    (Real.sin (dLon / 2) * Real.sin (dLon / 2))
  let c := 2 * atan2 (Real.sqrt a) (Real.sqrt (1 - a))
  let distanceKm := R * c
  distanceKm * 1000

/-- Rectangular prefilter box, result type of `getBoundingBox`. -/
structure BoundingBox where
  minLat : ℝ
  maxLat : ℝ
  minLng : ℝ
  maxLng : ℝ

/-- Bounding box around a center, from `geolocation.js`
`getBoundingBox(lat, lng, radius)`. -/
noncomputable def getBoundingBox (lat lng radius : ℝ) : BoundingBox :=
  let earthRadius : ℝ := 6371000
  let latRad := toRad lat
  let lngRad := toRad lng
  let angularDistance := radius / earthRadius
  let deltaLng := Real.arcsin (Real.sin angularDistance / Real.cos latRad)
  { minLat := toDegrees (latRad - angularDistance)
    maxLat := toDegrees (latRad + angularDistance)
    minLng := toDegrees (lngRad - deltaLng)
    maxLng := toDegrees (lngRad + deltaLng) }

/-- JavaScript `Math.round` on a real argument: round half up. -/
noncomputable def jsRound (x : ℝ) : ℤ := ⌊x + 1 / 2⌋

/-- Does the first character list start with the second (case as given)? -/
def startsWithSeq : List Char → List Char → Bool
  | _, [] => true
  | [], _ :: _ => false
  | a :: as, b :: bs => a == b && startsWithSeq as bs

/-- Substring test on character lists. -/
def hasSubSeq : List Char → List Char → Bool
  | [], needle => needle.isEmpty
  | a :: t, needle => startsWithSeq (a :: t) needle || hasSubSeq t needle

/-- Lower-cased character list of a string. -/
def lowerStr (s : String) : List Char := s.toList.map Char.toLower

/-- Case-insensitive `contains` filter on `cuisineType`, modelling the
Prisma clause `cuisineType: { contains: cuisine, mode: 'insensitive' }`
in `getNearbyHotels`; a `none` query cuisine means the clause is absent. -/
def cuisineMatch (hotelCuisine : Option String) (cuisine : Option String) : Bool :=
  match cuisine with
  | none => true
  | some c =>
    match hotelCuisine with
    | none => false
    | some t => hasSubSeq (lowerStr t) (lowerStr c)

/-- Hotel row as read by the proximity search (`hotelController`):
coordinates are nullable columns. -/
structure Hotel where
  id : ℕ
  isActive : Bool
  latitude : Option ℝ
  longitude : Option ℝ
  deliveryRadius : ℝ
  cuisineType : Option String

/-- Result element of `getNearbyHotels`: the hotel spread together with
the attached `distance` (rounded to meters), `isDeliverable` and
`estimatedDeliveryTime` fields. -/
structure NearbyHotel where
  hotel : Hotel
  distance : ℤ
  isDeliverable : Bool
  estimatedDeliveryTime : ℤ

/-- The Prisma bounding-box `where` clause of `getNearbyHotels`: latitude
and longitude must be set and fall inside the box (SQL comparisons on a
NULL column are not satisfied). -/
def inBox (h : Hotel) (b : BoundingBox) : Prop :=
  match h.latitude, h.longitude with
  | some la, some ln => b.minLat ≤ la ∧ la ≤ b.maxLat ∧ b.minLng ≤ ln ∧ ln ≤ b.maxLng
  | _, _ => False

/-- The `.map` body of `getNearbyHotels`: returns `none` when either
coordinate is JS-falsy (`null` or `0`), otherwise attaches the exact
distance (rounded), the deliverability flag (exact distance against the
hotel's own `deliveryRadius`) and the estimated delivery time
`Math.round(distance / 500 * 10 + 20)`. -/
noncomputable def processHotel (userLat userLon : ℝ) (h : Hotel) : Option NearbyHotel :=
  match h.latitude, h.longitude with
  | some la, some ln =>
    if la = 0 ∨ ln = 0 then none
    else
      let distance := calculateDistance userLat userLon la ln
      some { hotel := h
             distance := jsRound distance
             isDeliverable := decide (distance ≤ h.deliveryRadius)
             estimatedDeliveryTime := jsRound (distance / 500 * 10 + 20) }
  | _, _ => none

/-- Proximity search, from `hotelController.getNearbyHotels`: bounding-box
and activity prefilter (the Prisma query), exact-distance refinement,
delivery-radius filter, sort ascending by the attached (rounded) distance,
truncate to 20. `db` is the hotel table. -/
noncomputable def getNearbyHotels (db : List Hotel) (latitude longitude radius : ℝ)
    (cuisine : Option String) : List NearbyHotel :=
  let bbox := getBoundingBox latitude longitude radius
  let hotels := db.filter fun h =>
    h.isActive && decide (inBox h bbox) && cuisineMatch h.cuisineType cuisine
  let mapped := hotels.filterMap (processHotel latitude longitude)
  let nearby := mapped.filter fun nh => nh.isDeliverable
  (nearby.mergeSort fun a b => decide (a.distance ≤ b.distance)).take 20

/-- Order status enum, exactly the values accepted by
`orderRules.updateStatus` in `middleware/validation.js`. -/
inductive OrderStatus
  | PENDING
  | CONFIRMED
  | PREPARING
  | OUT_FOR_DELIVERY
  | DELIVERED
  | CANCELLED
deriving DecidableEq

/-- Payment status values used by the order controllers. -/
inductive PaymentStatus
  | PENDING
  | PAID
  | REFUNDED
deriving DecidableEq

/-- Payment method enum from `orderRules.create`. -/
inductive PaymentMethod
  | CASH
  | CARD
  | MOBILE_MONEY
deriving DecidableEq

/-- Caller roles, from the auth middleware contract. -/
inductive Role
  | USER
  | HOTEL_ADMIN
  | ADMIN
deriving DecidableEq

/-- Authenticated caller (`req.user`): id, role and — for hotel admins —
the administered hotel's id. -/
structure Principal where
  id : ℕ
  role : Role
  hotelId : Option ℕ
deriving DecidableEq

/-- Menu item row (the fields `createOrder` reads). -/
structure MenuItem where
  id : ℕ
  hotelId : ℕ
  price : ℚ
  isAvailable : Bool
deriving DecidableEq

/-- Hotel row as read by the order side (`createOrder`) and written by
`submitReview` (rating aggregation). -/
structure HotelRow where
  id : ℕ
  isActive : Bool
  deliveryFee : ℚ
  minOrderAmount : ℚ
  rating : ℚ
  totalReviews : ℕ
deriving DecidableEq

/-- A caller-supplied cart line of the `createOrder` request body. -/
structure CartLine where
  menuItemId : ℕ
  quantity : ℤ
deriving DecidableEq

/-- A priced cart line as accumulated by the `createOrder` loop. -/
structure PricedItem where
  menuItemId : ℕ
  quantity : ℤ
  unitPrice : ℚ
  subtotal : ℚ
deriving DecidableEq

/-- Order row. -/
structure OrderRow where
  id : ℕ
  userId : ℕ
  hotelId : ℕ
  totalAmount : ℚ
  status : OrderStatus
  paymentStatus : PaymentStatus
  paymentMethod : PaymentMethod
  deliveryNotes : Option String
deriving DecidableEq

/-- Order item row. -/
structure OrderItemRow where
  orderId : ℕ
  menuItemId : ℕ
  quantity : ℤ
  unitPrice : ℚ
  subtotal : ℚ
deriving DecidableEq

/-- Review row (order id, user id, hotel id, rating). -/
structure ReviewRow where
  userId : ℕ
  hotelId : ℕ
  orderId : ℕ
  rating : ℤ
deriving DecidableEq

/-- The persistent state the order-side controllers touch. -/
structure Db where
  hotels : List HotelRow
  menuItems : List MenuItem
  orders : List OrderRow
  orderItems : List OrderItemRow
  reviews : List ReviewRow
  nextOrderId : ℕ
deriving DecidableEq

/-- Errors produced by `createOrder` before the transaction is reached. -/
inductive OrderError
  | hotelNotFound
  | itemNotAvailable (menuItemId : ℕ)
  | invalidQuantity (menuItemId : ℕ)
  | belowMinimumOrder
deriving DecidableEq

/-- The Prisma lookup `hotel.findUnique({ id, isActive: true })`. -/
def findActiveHotel (db : Db) (hotelId : ℕ) : Option HotelRow :=
  db.hotels.find? fun h => decide (h.id = hotelId ∧ h.isActive = true)

/-- The included `menuItems` of the hotel fetch: items of this hotel with
`isAvailable: true`. -/
def availableMenuItems (db : Db) (hotelId : ℕ) : List MenuItem :=
  db.menuItems.filter fun m => decide (m.hotelId = hotelId ∧ m.isAvailable = true)

/-- The validation/pricing loop of `createOrder`: each line must name an
available menu item and have quantity at least 1; the line is priced at
the fetched item's price; the first failing line aborts the request. -/
def priceItems (menu : List MenuItem) : List CartLine → Except OrderError (List PricedItem)
  | [] => .ok []
  | line :: rest =>
    match menu.find? fun m => decide (m.id = line.menuItemId) with
    | none => .error (.itemNotAvailable line.menuItemId)
    | some m =>
      if line.quantity < 1 then .error (.invalidQuantity m.id)
      else
        match priceItems menu rest with
        | .error e => .error e
        | .ok prest =>
          .ok ({ menuItemId := m.id
                 quantity := line.quantity
                 unitPrice := m.price
                 subtotal := m.price * (line.quantity : ℚ) } :: prest)

/-- Order creation, from `orderController.createOrder`: hotel lookup,
cart pricing, minimum-order check, delivery fee, then the transaction
inserting the order row and its item rows. On any error the state is
returned unchanged (the transaction is never started). -/
def createOrder (db : Db) (userId hotelId : ℕ) (items : List CartLine)
    (paymentMethod : PaymentMethod) : Db × Except OrderError OrderRow :=
  match findActiveHotel db hotelId with
  | none => (db, .error .hotelNotFound)
  | some hotel =>
    match priceItems (availableMenuItems db hotelId) items with
    | .error e => (db, .error e)
    | .ok priced =>
      let subtotal := (priced.map fun p => p.subtotal).sum
      if subtotal < hotel.minOrderAmount then (db, .error .belowMinimumOrder)
      else
        let totalAmount := subtotal + hotel.deliveryFee
        let oid := db.nextOrderId
        let order : OrderRow :=
          { id := oid
            userId := userId
            hotelId := hotelId
            totalAmount := totalAmount
            status := .PENDING
            paymentStatus := match paymentMethod with | .CASH => .PENDING | _ => .PENDING
            paymentMethod := paymentMethod
            deliveryNotes := none }
        let rows := priced.map fun p =>
          ({ orderId := oid
             menuItemId := p.menuItemId
             quantity := p.quantity
             unitPrice := p.unitPrice
             subtotal := p.subtotal } : OrderItemRow)
        ({ db with
            orders := db.orders ++ [order]
            orderItems := db.orderItems ++ rows
            nextOrderId := oid + 1 }, .ok order)

/-- Prisma `order.update` on the unique id: replace the row with that id. -/
def setOrder (orders : List OrderRow) (o : OrderRow) : List OrderRow :=
  orders.map fun x => if x.id = o.id then o else x

/-- Result of the status-update endpoint. `unauthorized` is the 403 of the
`authorize('ADMIN', 'HOTEL_ADMIN')` middleware, `forbidden` the 403 of the
in-controller hotel check, `notFound` the 404. -/
inductive UpdateStatusResult
  | unauthorized
  | notFound
  | forbidden
  | ok (o : OrderRow)
deriving DecidableEq

/-- Status update, from the route `PUT /api/orders/:id/status`
(`authorize('ADMIN', 'HOTEL_ADMIN')` then
`orderController.updateOrderStatus`); `newStatus` ranges over exactly the
enum accepted by `orderRules.updateStatus`. The controller applies the
requested status unconditionally: it never inspects the current status. -/
def updateOrderStatus (db : Db) (caller : Principal) (orderId : ℕ)
    (newStatus : OrderStatus) (deliveryNotes : Option String) : Db × UpdateStatusResult :=
  if ¬(caller.role = .ADMIN ∨ caller.role = .HOTEL_ADMIN) then (db, .unauthorized)
  else
    match db.orders.find? fun o => decide (o.id = orderId) with
    | none => (db, .notFound)
    | some order =>
      if caller.role = .HOTEL_ADMIN ∧ caller.hotelId ≠ some order.hotelId then
        (db, .forbidden)
      else
        let updated := { order with
          status := newStatus
          deliveryNotes := match deliveryNotes with
            | some n => if n = "" then order.deliveryNotes else some n
            | none => order.deliveryNotes }
        ({ db with orders := setOrder db.orders updated }, .ok updated)

/-- Result of the cancel endpoint: the controller only ever answers 404
(`Order not found or cannot be cancelled`) or 200. -/
inductive CancelResult
  | notFound
  | ok (o : OrderRow)
deriving DecidableEq

/-- HTTP status returned for each `CancelResult` by the controller. -/
def cancelHttpStatus : CancelResult → ℕ
  | .notFound => 404
  | .ok _ => 200

/-- Order cancellation, from `orderController.cancelOrder` (route
`PUT /api/orders/:id/cancel`, plain `protect`): the `findFirst` clause
requires the id, ownership by the caller and a current status of PENDING
or CONFIRMED, all in one lookup; any miss is answered 404. On success the
status becomes CANCELLED and the payment status REFUNDED. -/
def cancelOrder (db : Db) (caller : Principal) (orderId : ℕ) : Db × CancelResult :=
  match db.orders.find? fun o =>
      decide (o.id = orderId ∧ o.userId = caller.id ∧
        (o.status = .PENDING ∨ o.status = .CONFIRMED)) with
  | none => (db, .notFound)
  | some order =>
    let updated := { order with
      status := OrderStatus.CANCELLED
      paymentStatus := PaymentStatus.REFUNDED }
    ({ db with orders := setOrder db.orders updated }, .ok updated)

/-- Result of the review endpoint. -/
inductive ReviewResult
  | orderNotFound
  | alreadyReviewed
  | created (r : ReviewRow)
deriving DecidableEq

/-- Average rating aggregate (`review.aggregate _avg.rating || 0`). -/
def hotelAvgRating (reviews : List ReviewRow) (hid : ℕ) : ℚ :=
  let rs := reviews.filter fun r => decide (r.hotelId = hid)
  if rs.length = 0 then 0 else ((rs.map fun r => (r.rating : ℚ)).sum) / rs.length

/-- Review submission, from `userController.submitReview`: the order must
exist, belong to the caller and be DELIVERED; a prior review by the same
user on the same order answers 400 (`already reviewed`) and writes
nothing; otherwise the review row is inserted and the hotel's rating
aggregate is refreshed. -/
def submitReview (db : Db) (caller : Principal) (orderId : ℕ) (rating : ℤ) :
    Db × ReviewResult :=
  match db.orders.find? fun o =>
      decide (o.id = orderId ∧ o.userId = caller.id ∧ o.status = .DELIVERED) with
  | none => (db, .orderNotFound)
  | some order =>
    match db.reviews.find? fun r =>
        decide (r.orderId = orderId ∧ r.userId = caller.id) with
    | some _ => (db, .alreadyReviewed)
    | none =>
      let review : ReviewRow :=
        { userId := caller.id, hotelId := order.hotelId, orderId := orderId,
          rating := rating }
      let reviews1 := db.reviews ++ [review]
      let hotels1 := db.hotels.map fun h =>
        if h.id = order.hotelId then
          { h with
            rating := hotelAvgRating reviews1 order.hotelId
            totalReviews := (reviews1.filter fun r =>
              decide (r.hotelId = order.hotelId)).length }
        else h
      ({ db with reviews := reviews1, hotels := hotels1 }, .created review)

/-- At most one review per (order, user) pair. -/
def uniqueReviews (rs : List ReviewRow) : Prop :=
  List.Pairwise (fun a b => ¬(a.orderId = b.orderId ∧ a.userId = b.userId)) rs

/-- Concrete hotel used in the worked search examples: 1 km due north of
the query point (10, 20), well inside its own 3000 m delivery radius. -/
noncomputable def hotelCe : Hotel :=
  { id := 1
    isActive := true
    latitude := some 10.009
    longitude := some 20
    deliveryRadius := 3000
    cuisineType := none }

/-- The single result `getNearbyHotels [hotelCe] 10 20 3000 none`
produces: exact distance `318.55 * π ≈ 1000.75 m`, rounded to 1001 m,
estimated delivery time `Math.round(6.371 * π + 20) = 40`. -/
def nhCe : NearbyHotel :=
  { hotel := { id := 1
               isActive := true
               latitude := some 10.009
               longitude := some 20
               deliveryRadius := 3000
               cuisineType := none }
    distance := 1001
    isDeliverable := true
    estimatedDeliveryTime := 40 }

/-- A hotel with delivery fee 2.99 and minimum order 10.00 (the worked
example of the specification). -/
def hotelW : HotelRow :=
  { id := 1, isActive := true, deliveryFee := 2.99, minOrderAmount := 10,
    rating := 0, totalReviews := 0 }

/-- Worked `createOrder` database: `hotelW` with a 6.00 item and a 4.00
item. -/
def dbW : Db :=
  { hotels := [hotelW]
    menuItems := [{ id := 1, hotelId := 1, price := 6, isAvailable := true },
                  { id := 2, hotelId := 1, price := 4, isAvailable := true }]
    orders := []
    orderItems := []
    reviews := []
    nextOrderId := 100 }

/-- Cart with two units of the 6.00 item: subtotal 12.00. -/
def cartW : List CartLine := [{ menuItemId := 1, quantity := 2 }]

/-- The order `createOrder dbW 7 1 cartW` produces: 12.00 + 2.99 = 14.99. -/
def orderW : OrderRow :=
  { id := 100, userId := 7, hotelId := 1, totalAmount := 14.99,
    status := .PENDING, paymentStatus := .PENDING, paymentMethod := .CASH,
    deliveryNotes := none }

/-- The order item rows persisted with `orderW`. -/
def rowsW : List OrderItemRow :=
  [{ orderId := 100, menuItemId := 1, quantity := 2, unitPrice := 6, subtotal := 12 }]

/-- The database state after placing `orderW`. -/
def dbW2 : Db :=
  { dbW with
    orders := dbW.orders ++ [orderW]
    orderItems := dbW.orderItems ++ rowsW
    nextOrderId := 101 }

/-- Cart with one unit of the 4.00 item: subtotal 4.00, below the 10.00
minimum. -/
def cartW2 : List CartLine := [{ menuItemId := 2, quantity := 1 }]

/-- The priced form of `cartW2`. -/
def pricedW2 : List PricedItem :=
  [{ menuItemId := 2, quantity := 1, unitPrice := 4, subtotal := 4 }]

/-- A delivered order of user 7 at hotel 5, used to exercise the status
endpoints. -/
def orderDel : OrderRow :=
  { id := 1, userId := 7, hotelId := 5, totalAmount := 30, status := .DELIVERED,
    paymentStatus := .PAID, paymentMethod := .CASH, deliveryNotes := none }

/-- Database holding only `orderDel`. -/
def dbDel : Db :=
  { hotels := [], menuItems := [], orders := [orderDel], orderItems := [],
    reviews := [], nextOrderId := 2 }

/-- A pending order of user 1, used to exercise `cancelOrder`. -/
def orderPend : OrderRow :=
  { id := 1, userId := 1, hotelId := 5, totalAmount := 30, status := .PENDING,
    paymentStatus := .PENDING, paymentMethod := .CASH, deliveryNotes := none }

/-- Database holding only `orderPend`. -/
def dbPend : Db :=
  { hotels := [], menuItems := [], orders := [orderPend], orderItems := [],
    reviews := [], nextOrderId := 2 }

/-- An existing review of user 7 on order 1 (hotel 5). -/
def reviewW : ReviewRow := { userId := 7, hotelId := 5, orderId := 1, rating := 5 }

/-- Database holding `orderDel` and an existing review on it by its owner. -/
def dbRev : Db :=
  { hotels := [], menuItems := [], orders := [orderDel], orderItems := [],
    reviews := [reviewW], nextOrderId := 2 }

/-- An admin principal. -/
def adminP : Principal := { id := 9, role := .ADMIN, hotelId := none }

/-- A hotel-admin principal for hotel 6 (not hotel 5). -/
def hotelAdminP6 : Principal := { id := 8, role := .HOTEL_ADMIN, hotelId := some 6 }

/-- A hotel-admin principal for hotel 5. -/
def hotelAdminP5 : Principal := { id := 8, role := .HOTEL_ADMIN, hotelId := some 5 }

/-- A plain user principal with id 2. -/
def userP2 : Principal := { id := 2, role := .USER, hotelId := none }

/-- A plain user principal with id 1 (the owner of `orderPend`). -/
def userP1 : Principal := { id := 1, role := .USER, hotelId := none }

/-- `orderPend` after cancellation. -/
def orderPendCancelled : OrderRow :=
  { orderPend with status := .CANCELLED, paymentStatus := .REFUNDED }

/-- `dbPend` after the owner cancels order 1. -/
def dbPendCancelled : Db := { dbPend with orders := [orderPendCancelled] }

/-- A plain user principal with id 7. -/
def userP7 : Principal := { id := 7, role := .USER, hotelId := none }

end HotelMM

namespace HotelMM

open scoped Classical

theorem toDegrees_toRad (x : ℝ) : toDegrees (toRad x) = x := by
  unfold toRad toDegrees
  have h := Real.pi_ne_zero
  field_simp

theorem atan2_nonneg {y x : ℝ} (hy : 0 ≤ y) : 0 ≤ atan2 y x := by
  rw [atan2]
  exact Complex.arg_nonneg_iff.mpr hy

theorem atan2_zero_one : atan2 0 1 = 0 := by
  have hmk : (⟨1, 0⟩ : ℂ) = 1 := by
    apply Complex.ext <;> simp
  rw [atan2, hmk, Complex.arg_one]

theorem atan2_sin_cos {θ : ℝ} (h0 : 0 ≤ θ) (h1 : θ ≤ Real.pi / 2) :
    atan2 (Real.sin θ) (Real.cos θ) = θ := by
  have hpi := Real.pi_pos
  have hmk : (⟨Real.cos θ, Real.sin θ⟩ : ℂ) =
      Complex.cos θ + Complex.sin θ * Complex.I := by
    apply Complex.ext <;>
      simp [Complex.cos_ofReal_re, Complex.sin_ofReal_re, Complex.add_im, Complex.add_re]
  rw [atan2, hmk]
  exact Complex.arg_cos_add_sin_mul_I ⟨by linarith, by linarith⟩

/-- North-south runs of the haversine formula are exact: for two points on
the same meridian with `0 ≤ lat2 - lat1 ≤ 180`, the distance is the earth
radius times the latitude difference in radians. -/
theorem calculateDistance_same_lon (lat1 lon lat2 : ℝ) (h0 : 0 ≤ lat2 - lat1)
    (h180 : lat2 - lat1 ≤ 180) :
    calculateDistance lat1 lon lat2 lon = 6371 * toRad (lat2 - lat1) * 1000 := by
  have hpi := Real.pi_pos
  set θ := toRad (lat2 - lat1) / 2 with hθ
  have hθ0 : 0 ≤ θ := by
    rw [hθ]
    unfold toRad
    positivity
  have hθ2 : θ ≤ Real.pi / 2 := by
    rw [hθ]
    unfold toRad
    nlinarith
  unfold calculateDistance
  simp only [sub_self]
  rw [show toRad 0 = 0 by unfold toRad; ring]
  simp only [zero_div, Real.sin_zero, mul_zero, zero_mul, add_zero]
  have hsin : 0 ≤ Real.sin θ := Real.sin_nonneg_of_nonneg_of_le_pi hθ0 (by linarith)
  have hcos : 0 ≤ Real.cos θ := Real.cos_nonneg_of_mem_Icc ⟨by linarith, hθ2⟩
  have ha : Real.sqrt (Real.sin θ * Real.sin θ) = Real.sin θ := Real.sqrt_mul_self hsin
  have hb : (1 : ℝ) - Real.sin θ * Real.sin θ = Real.cos θ * Real.cos θ := by
    nlinarith [Real.sin_sq_add_cos_sq θ]
  have hc : Real.sqrt (1 - Real.sin θ * Real.sin θ) = Real.cos θ := by
    rw [hb]
    exact Real.sqrt_mul_self hcos
  rw [ha, hc, atan2_sin_cos hθ0 hθ2, hθ]
  ring

/-- C8: `calculateDistance` is symmetric in its two coordinate pairs, is
zero on identical pairs, and is never negative. -/
theorem calculateDistance_symm_self_nonneg :
    (∀ lat1 lon1 lat2 lon2 : ℝ,
      calculateDistance lat1 lon1 lat2 lon2 = calculateDistance lat2 lon2 lat1 lon1) ∧
    (∀ lat lon : ℝ, calculateDistance lat lon lat lon = 0) ∧
    (∀ lat1 lon1 lat2 lon2 : ℝ, 0 ≤ calculateDistance lat1 lon1 lat2 lon2) := by
  refine ⟨?_, ?_, ?_⟩
  · intro lat1 lon1 lat2 lon2
    unfold calculateDistance
    dsimp only
    have h1 : toRad (lat1 - lat2) / 2 = -(toRad (lat2 - lat1) / 2) := by
      unfold toRad; ring
    have h2 : toRad (lon1 - lon2) / 2 = -(toRad (lon2 - lon1) / 2) := by
      unfold toRad; ring
    have h1s : Real.sin (toRad (lat1 - lat2) / 2) * Real.sin (toRad (lat1 - lat2) / 2) =
        Real.sin (toRad (lat2 - lat1) / 2) * Real.sin (toRad (lat2 - lat1) / 2) := by
      rw [h1, Real.sin_neg]; ring
    have h2s : Real.sin (toRad (lon1 - lon2) / 2) * Real.sin (toRad (lon1 - lon2) / 2) =
        Real.sin (toRad (lon2 - lon1) / 2) * Real.sin (toRad (lon2 - lon1) / 2) := by
      rw [h2, Real.sin_neg]; ring
    rw [h1s, h2s, mul_comm (Real.cos (toRad lat2)) (Real.cos (toRad lat1))]
  · intro lat lon
    unfold calculateDistance
    simp only [sub_self]
    rw [show toRad 0 = 0 by unfold toRad; ring]
    simp only [zero_div, Real.sin_zero, mul_zero, zero_mul, add_zero, sub_zero,
      Real.sqrt_zero, Real.sqrt_one]
    rw [atan2_zero_one]
    ring
  · intro lat1 lon1 lat2 lon2
    unfold calculateDistance
    dsimp only
    set A := Real.sin (toRad (lat2 - lat1) / 2) * Real.sin (toRad (lat2 - lat1) / 2) +
      Real.cos (toRad lat1) * Real.cos (toRad lat2) *
      (Real.sin (toRad (lon2 - lon1) / 2) * Real.sin (toRad (lon2 - lon1) / 2)) with hA
    have h : 0 ≤ atan2 (Real.sqrt A) (Real.sqrt (1 - A)) :=
      atan2_nonneg (Real.sqrt_nonneg A)
    nlinarith [h]

theorem processHotel_eq_some {userLat userLon : ℝ} {h : Hotel} {nh : NearbyHotel}
    (hp : processHotel userLat userLon h = some nh) :
    ∃ la ln, h.latitude = some la ∧ h.longitude = some ln ∧
      nh = { hotel := h
             distance := jsRound (calculateDistance userLat userLon la ln)
             isDeliverable :=
               decide (calculateDistance userLat userLon la ln ≤ h.deliveryRadius)
             estimatedDeliveryTime :=
               jsRound (calculateDistance userLat userLon la ln / 500 * 10 + 20) } := by
  cases hla : h.latitude with
  | none => simp [processHotel, hla] at hp
  | some la =>
    cases hln : h.longitude with
    | none => simp [processHotel, hla, hln] at hp
    | some ln =>
      simp only [processHotel, hla, hln] at hp
      by_cases hz : la = 0 ∨ ln = 0
      · rw [if_pos hz] at hp
        exact absurd hp (by simp)
      · rw [if_neg hz] at hp
        exact ⟨la, ln, rfl, rfl, (Option.some.inj hp).symm⟩

theorem mem_getNearbyHotels {db : List Hotel} {lat lon radius : ℝ}
    {cuisine : Option String} {nh : NearbyHotel}
    (hmem : nh ∈ getNearbyHotels db lat lon radius cuisine) :
    ∃ la ln, nh.hotel ∈ db ∧ nh.hotel.isActive = true ∧
      nh.hotel.latitude = some la ∧ nh.hotel.longitude = some ln ∧
      calculateDistance lat lon la ln ≤ nh.hotel.deliveryRadius ∧
      nh.distance = jsRound (calculateDistance lat lon la ln) ∧
      nh.estimatedDeliveryTime =
        jsRound (calculateDistance lat lon la ln / 500 * 10 + 20) := by
  simp only [getNearbyHotels] at hmem
  have h1 := List.mem_of_mem_take hmem
  rw [List.mem_mergeSort, List.mem_filter] at h1
  obtain ⟨h2, hdel⟩ := h1
  rw [List.mem_filterMap] at h2
  obtain ⟨h0, hmemf, hproc⟩ := h2
  obtain ⟨la, ln, hla, hln, hnh⟩ := processHotel_eq_some hproc
  rw [List.mem_filter] at hmemf
  obtain ⟨hdb, hpred⟩ := hmemf
  have hact : h0.isActive = true := by
    simp only [Bool.and_eq_true] at hpred
    exact hpred.1.1
  subst hnh
  refine ⟨la, ln, hdb, hact, hla, hln, of_decide_eq_true hdel, rfl, rfl⟩

/-- C4: every hotel returned by the proximity search lies within its own
delivery radius, measured by the exact haversine distance from the query
point, and the returned list is sorted ascending by its `distance` key. -/
theorem getNearbyHotels_within_radius_sorted (db : List Hotel) (lat lon radius : ℝ)
    (cuisine : Option String) :
    List.Pairwise (fun a b : NearbyHotel => a.distance ≤ b.distance)
      (getNearbyHotels db lat lon radius cuisine) ∧
    ∀ nh ∈ getNearbyHotels db lat lon radius cuisine, ∃ la ln,
      nh.hotel.latitude = some la ∧ nh.hotel.longitude = some ln ∧
      calculateDistance lat lon la ln ≤ nh.hotel.deliveryRadius := by
  constructor
  · simp only [getNearbyHotels]
    refine List.Pairwise.sublist (List.take_sublist _ _) ?_
    refine List.Pairwise.imp ?_ (List.sorted_mergeSort ?_ ?_ _)
    · exact fun h => of_decide_eq_true h
    · intro a b c h1 h2
      simp only [decide_eq_true_eq] at *
      omega
    · intro a b
      simp only [Bool.or_eq_true, decide_eq_true_eq]
      exact Int.le_total a.distance b.distance
  · intro nh hm
    obtain ⟨la, ln, _, _, hla, hln, hle, _, _⟩ := mem_getNearbyHotels hm
    exact ⟨la, ln, hla, hln, hle⟩

/-- C5: the proximity search returns at most 20 hotels, only active ones,
and only hotels with both coordinates set. -/
theorem getNearbyHotels_limit_active_coords (db : List Hotel) (lat lon radius : ℝ)
    (cuisine : Option String) :
    (getNearbyHotels db lat lon radius cuisine).length ≤ 20 ∧
    ∀ nh ∈ getNearbyHotels db lat lon radius cuisine,
      nh.hotel.isActive = true ∧ nh.hotel.latitude ≠ none ∧
      nh.hotel.longitude ≠ none := by
  constructor
  · simp only [getNearbyHotels]
    exact List.length_take_le _ _
  · intro nh hm
    obtain ⟨la, ln, _, hact, hla, hln, _, _, _⟩ := mem_getNearbyHotels hm
    exact ⟨hact, by simp [hla], by simp [hln]⟩

/-- C9 (amended): the estimated delivery time attached to each returned
hotel is `Math.round(distance / 500 * 10 + 20)` — rounded, not ceiled —
where `distance` is the exact haversine distance to the query point. -/
theorem getNearbyHotels_estimatedTime_round (db : List Hotel) (lat lon radius : ℝ)
    (cuisine : Option String) (nh : NearbyHotel)
    (hmem : nh ∈ getNearbyHotels db lat lon radius cuisine) :
    ∃ la ln, nh.hotel.latitude = some la ∧ nh.hotel.longitude = some ln ∧
      nh.estimatedDeliveryTime =
        jsRound (calculateDistance lat lon la ln / 500 * 10 + 20) := by
  obtain ⟨la, ln, _, _, hla, hln, _, _, hest⟩ := mem_getNearbyHotels hmem
  exact ⟨la, ln, hla, hln, hest⟩

theorem dist_hotelCe : calculateDistance 10 20 10.009 20 = 318.55 * Real.pi := by
  rw [calculateDistance_same_lon 10 20 10.009 (by norm_num) (by norm_num)]
  unfold toRad
  ring_nf

theorem inBox_hotelCe : inBox hotelCe (getBoundingBox 10 20 3000) := by
  have hpi := Real.pi_pos
  have hpi2 : Real.pi < 3.15 := Real.pi_lt_d2
  have hcos : 0 < Real.cos (toRad 10) := by
    apply Real.cos_pos_of_mem_Ioo
    constructor
    · unfold toRad; nlinarith
    · unfold toRad; nlinarith
  have hsin : 0 ≤ Real.sin ((3000 : ℝ) / 6371000) := by
    apply Real.sin_nonneg_of_nonneg_of_le_pi
    · norm_num
    · nlinarith [Real.pi_gt_three]
  have hdelta : 0 ≤ Real.arcsin (Real.sin ((3000 : ℝ) / 6371000) / Real.cos (toRad 10)) :=
    Real.arcsin_nonneg.mpr (div_nonneg hsin hcos.le)
  have hsub : ∀ a b : ℝ, toDegrees (a - b) = toDegrees a - toDegrees b := by
    intro a b; unfold toDegrees; ring
  have hadd : ∀ a b : ℝ, toDegrees (a + b) = toDegrees a + toDegrees b := by
    intro a b; unfold toDegrees; ring
  have hkey : (0.009 : ℝ) ≤ toDegrees ((3000 : ℝ) / 6371000) := by
    unfold toDegrees
    rw [div_mul_div_comm, le_div_iff₀ (by positivity)]
    nlinarith
  have hdeg : 0 ≤ toDegrees (Real.arcsin (Real.sin ((3000 : ℝ) / 6371000) / Real.cos (toRad 10))) := by
    unfold toDegrees
    exact mul_nonneg hdelta (by positivity)
  simp only [inBox, hotelCe, getBoundingBox]
  refine ⟨?_, ?_, ?_, ?_⟩
  · rw [hsub, toDegrees_toRad]
    have := hkey
    linarith [hdeg, hkey]
  · rw [hadd, toDegrees_toRad]
    linarith [hkey]
  · rw [hsub, toDegrees_toRad]
    linarith [hdeg]
  · rw [hadd, toDegrees_toRad]
    linarith [hdeg]

theorem processHotel_hotelCe :
    processHotel 10 20 hotelCe = some nhCe := by
  have h1001 : jsRound (calculateDistance 10 20 10.009 20) = 1001 := by
    rw [dist_hotelCe]
    unfold jsRound
    rw [Int.floor_eq_iff]
    constructor
    · push_cast
      nlinarith [Real.pi_gt_d4]
    · push_cast
      nlinarith [Real.pi_lt_d4]
  have h40 : jsRound (calculateDistance 10 20 10.009 20 / 500 * 10 + 20) = 40 := by
    rw [dist_hotelCe]
    unfold jsRound
    rw [Int.floor_eq_iff]
    constructor
    · push_cast
      nlinarith [Real.pi_gt_d2]
    · push_cast
      nlinarith [Real.pi_lt_d2]
  have hdel : decide (calculateDistance 10 20 10.009 20 ≤ (3000 : ℝ)) = true := by
    apply decide_eq_true
    rw [dist_hotelCe]
    nlinarith [Real.pi_lt_d2, Real.pi_pos]
  simp only [processHotel, hotelCe, nhCe]
  rw [if_neg (by norm_num)]
  rw [h1001, h40, hdel]

theorem getNearbyHotels_single_eval :
    getNearbyHotels [hotelCe] 10 20 3000 none = [nhCe] := by
  simp only [getNearbyHotels]
  have hpred : (hotelCe.isActive &&
      decide (inBox hotelCe (getBoundingBox 10 20 3000)) &&
      cuisineMatch hotelCe.cuisineType none) = true := by
    rw [decide_eq_true inBox_hotelCe]
    rfl
  have hfil : List.filter (fun h =>
      h.isActive && decide (inBox h (getBoundingBox 10 20 3000)) &&
        cuisineMatch h.cuisineType none) [hotelCe] = [hotelCe] := by
    simp only [List.filter_cons, List.filter_nil, hpred, if_true]
  rw [hfil, List.filterMap_cons, processHotel_hotelCe]
  simp only [List.filterMap_nil]
  have : [nhCe].filter (fun nh => nh.isDeliverable) = [nhCe] := rfl
  rw [this, List.mergeSort_singleton]
  rfl

/-- C9 (counterexample): for the query point (10, 20) with radius 3000 m
and a single active hotel 0.009° due north (exact distance `318.55 * π ≈
1000.75 m`), the attached estimated delivery time is 40 minutes, while
`ceil(distance / 500 * 10 + 20) = 41`: the code rounds, the claim ceils. -/
theorem getNearbyHotels_time_ne_ceil :
    (getNearbyHotels [hotelCe] 10 20 3000 none).map
      (fun nh => nh.estimatedDeliveryTime) = [40] ∧
    ⌈calculateDistance 10 20 10.009 20 / 500 * 10 + 20⌉ = 41 ∧ (40 : ℤ) ≠ 41 := by
  refine ⟨by rw [getNearbyHotels_single_eval]; rfl, ?_, by decide⟩
  rw [dist_hotelCe, Int.ceil_eq_iff]
  constructor
  · push_cast
    nlinarith [Real.pi_gt_d2]
  · push_cast
    nlinarith [Real.pi_lt_d2]

/-- Witness for C4 at a concrete query: the single returned hotel is
within its own delivery radius and the result list is sorted. -/
theorem getNearbyHotels_within_radius_sorted_witness :
    List.Pairwise (fun a b : NearbyHotel => a.distance ≤ b.distance)
      (getNearbyHotels [hotelCe] 10 20 3000 none) ∧
    ∃ la ln, nhCe.hotel.latitude = some la ∧ nhCe.hotel.longitude = some ln ∧
      calculateDistance 10 20 la ln ≤ nhCe.hotel.deliveryRadius :=
  ⟨(getNearbyHotels_within_radius_sorted [hotelCe] 10 20 3000 none).1,
   (getNearbyHotels_within_radius_sorted [hotelCe] 10 20 3000 none).2 nhCe
     (by rw [getNearbyHotels_single_eval]; exact List.mem_singleton_self _)⟩

/-- Witness for C5 at a concrete query. -/
theorem getNearbyHotels_limit_active_coords_witness :
    (getNearbyHotels [hotelCe] 10 20 3000 none).length ≤ 20 ∧
    (nhCe.hotel.isActive = true ∧ nhCe.hotel.latitude ≠ none ∧
      nhCe.hotel.longitude ≠ none) :=
  ⟨(getNearbyHotels_limit_active_coords [hotelCe] 10 20 3000 none).1,
   (getNearbyHotels_limit_active_coords [hotelCe] 10 20 3000 none).2 nhCe
     (by rw [getNearbyHotels_single_eval]; exact List.mem_singleton_self _)⟩

/-- Witness for the amended C9 at a concrete query. -/
theorem getNearbyHotels_estimatedTime_round_witness :
    ∃ la ln, nhCe.hotel.latitude = some la ∧ nhCe.hotel.longitude = some ln ∧
      nhCe.estimatedDeliveryTime =
        jsRound (calculateDistance 10 20 la ln / 500 * 10 + 20) :=
  getNearbyHotels_estimatedTime_round [hotelCe] 10 20 3000 none nhCe
    (by rw [getNearbyHotels_single_eval]; exact List.mem_singleton_self _)

theorem priceItems_subtotals {menu : List MenuItem} {items : List CartLine}
    {priced : List PricedItem} (h : priceItems menu items = .ok priced) :
    ∀ p ∈ priced, p.subtotal = p.unitPrice * (p.quantity : ℚ) := by
  induction items generalizing priced with
  | nil =>
    simp only [priceItems] at h
    injection h with h
    subst h
    intro p hp
    simp at hp
  | cons line rest ih =>
    simp only [priceItems] at h
    cases hfind : menu.find? fun m => decide (m.id = line.menuItemId) with
    | none =>
      rw [hfind] at h
      exact absurd h (by simp)
    | some m =>
      rw [hfind] at h
      dsimp only at h
      by_cases hq : line.quantity < 1
      · rw [if_pos hq] at h
        exact absurd h (by simp)
      · rw [if_neg hq] at h
        cases hrest : priceItems menu rest with
        | error e =>
          rw [hrest] at h
          exact absurd h (by simp)
        | ok prest =>
          rw [hrest] at h
          injection h with h
          subst h
          intro p hp
          rcases List.mem_cons.mp hp with hp | hp
          · subst hp
            rfl
          · exact ih hrest p hp

/-- C1: a successfully placed order records `totalAmount` equal to the sum
of `unitPrice * quantity` over its persisted item rows plus the hotel's
delivery fee, and each persisted item row records `subtotal =
unitPrice * quantity`. -/
theorem createOrder_pricing (db : Db) (userId hotelId : ℕ) (items : List CartLine)
    (pm : PaymentMethod) (db2 : Db) (o : OrderRow)
    (h : createOrder db userId hotelId items pm = (db2, .ok o)) :
    ∃ hotel rows, findActiveHotel db hotelId = some hotel ∧
      db2.orderItems = db.orderItems ++ rows ∧
      o.totalAmount = ((rows.map fun r => r.unitPrice * (r.quantity : ℚ)).sum) +
        hotel.deliveryFee ∧
      ∀ r ∈ rows, r.subtotal = r.unitPrice * (r.quantity : ℚ) := by
  cases hfind : findActiveHotel db hotelId with
  | none =>
    simp only [createOrder, hfind] at h
    exact absurd h (by simp)
  | some hotel =>
    simp only [createOrder, hfind] at h
    cases hpr : priceItems (availableMenuItems db hotelId) items with
    | error e =>
      rw [hpr] at h
      exact absurd h (by simp)
    | ok priced =>
      rw [hpr] at h
      dsimp only at h
      by_cases hmin : (priced.map fun p => p.subtotal).sum < hotel.minOrderAmount
      · rw [if_pos hmin] at h
        exact absurd h (by simp)
      · rw [if_neg hmin] at h
        injection h with h1 h2
        injection h2 with h2
        subst h1
        subst h2
        refine ⟨hotel, priced.map fun p =>
          ({ orderId := db.nextOrderId
             menuItemId := p.menuItemId
             quantity := p.quantity
             unitPrice := p.unitPrice
             subtotal := p.subtotal } : OrderItemRow), rfl, rfl, ?_, ?_⟩
        · have hmaps : ((priced.map fun p =>
              ({ orderId := db.nextOrderId
                 menuItemId := p.menuItemId
                 quantity := p.quantity
                 unitPrice := p.unitPrice
                 subtotal := p.subtotal } : OrderItemRow)).map
                fun r => r.unitPrice * (r.quantity : ℚ)) =
              priced.map fun p => p.subtotal := by
            rw [List.map_map]
            apply List.map_congr_left
            intro p hp
            exact (priceItems_subtotals hpr p hp).symm
          rw [hmaps]
        · intro r hr
          rw [List.mem_map] at hr
          obtain ⟨p, hp, rfl⟩ := hr
          exact priceItems_subtotals hpr p hp

theorem createOrder_dbW_eval :
    createOrder dbW 7 1 cartW .CASH = (dbW2, .ok orderW) := by
  have hfind : findActiveHotel dbW 1 = some hotelW := rfl
  have hpr : priceItems (availableMenuItems dbW 1) cartW =
      .ok [{ menuItemId := 1, quantity := 2, unitPrice := 6, subtotal := 12 }] := by
    have : availableMenuItems dbW 1 = dbW.menuItems := rfl
    rw [this]
    simp only [priceItems, dbW, cartW, List.find?]
    norm_num
  simp only [createOrder, hfind, hpr]
  rw [if_neg (by norm_num [hotelW])]
  simp only [dbW2, dbW, orderW, rowsW, hotelW, Prod.mk.injEq]
  constructor
  · norm_num
  · congr 1
    norm_num

/-- Witness for C1: the specification's worked example — a 6.00 item twice
with delivery fee 2.99 yields `totalAmount = 14.99` and an item row with
subtotal 12.00. -/
theorem createOrder_pricing_witness :
    ∃ hotel rows, findActiveHotel dbW 1 = some hotel ∧
      dbW2.orderItems = dbW.orderItems ++ rows ∧
      orderW.totalAmount = ((rows.map fun r => r.unitPrice * (r.quantity : ℚ)).sum) +
        hotel.deliveryFee ∧
      ∀ r ∈ rows, r.subtotal = r.unitPrice * (r.quantity : ℚ) :=
  createOrder_pricing dbW 7 1 cartW .CASH dbW2 orderW createOrder_dbW_eval

/-- C3: when the priced cart's subtotal is strictly below the hotel's
minimum order amount, `createOrder` fails on the minimum-order check and
the state is returned unchanged — no order row and no order item rows are
written. -/
theorem createOrder_below_minimum (db : Db) (userId hotelId : ℕ)
    (items : List CartLine) (pm : PaymentMethod) (hotel : HotelRow)
    (priced : List PricedItem)
    (hfind : findActiveHotel db hotelId = some hotel)
    (hpr : priceItems (availableMenuItems db hotelId) items = .ok priced)
    (hmin : (priced.map fun p => p.subtotal).sum < hotel.minOrderAmount) :
    createOrder db userId hotelId items pm = (db, .error .belowMinimumOrder) := by
  simp only [createOrder, hfind, hpr, if_pos hmin]

/-- Witness for C3: the specification's second worked example — a single
4.00 item against a 10.00 minimum fails and leaves the state unchanged. -/
theorem createOrder_below_minimum_witness :
    createOrder dbW 7 1 cartW2 .CASH = (dbW, .error .belowMinimumOrder) :=
  createOrder_below_minimum dbW 7 1 cartW2 .CASH hotelW pricedW2 rfl
    (by have : availableMenuItems dbW 1 = dbW.menuItems := rfl
        rw [this]
        simp only [priceItems, dbW, cartW2, pricedW2, List.find?]
        norm_num)
    (by norm_num [pricedW2, hotelW])

/-- C2 (counterexample): an admin requests PENDING on an order whose
current status is DELIVERED; `updateOrderStatus` succeeds and rewrites the
status instead of failing with an invalid-transition error — the
controller never inspects the current status. -/
theorem updateOrderStatus_delivered_moves :
    (updateOrderStatus dbDel adminP 1 .PENDING none).2 =
      .ok { orderDel with status := .PENDING } ∧
    ((updateOrderStatus dbDel adminP 1 .PENDING none).1.orders.map
      fun o => o.status) = [.PENDING] ∧
    orderDel.status = .DELIVERED := by
  refine ⟨rfl, rfl, rfl⟩

theorem updateOrderStatus_ok_of_perm (db : Db) (caller : Principal) (orderId : ℕ)
    (st : OrderStatus) (dn : Option String) (order : OrderRow)
    (hfind : db.orders.find? (fun o => decide (o.id = orderId)) = some order)
    (hperm : caller.role = .ADMIN ∨
      (caller.role = .HOTEL_ADMIN ∧ caller.hotelId = some order.hotelId)) :
    updateOrderStatus db caller orderId st dn =
      ({ db with orders := setOrder db.orders { order with
            status := st
            deliveryNotes := match dn with
              | some n => if n = "" then order.deliveryNotes else some n
              | none => order.deliveryNotes } },
        .ok { order with
            status := st
            deliveryNotes := match dn with
              | some n => if n = "" then order.deliveryNotes else some n
              | none => order.deliveryNotes }) := by
  have hrole : caller.role = .ADMIN ∨ caller.role = .HOTEL_ADMIN := by
    rcases hperm with h | ⟨h, _⟩
    · exact .inl h
    · exact .inr h
  have hnot2 : ¬(caller.role = .HOTEL_ADMIN ∧ caller.hotelId ≠ some order.hotelId) := by
    rcases hperm with h | ⟨h, heq⟩
    · rintro ⟨hH, _⟩
      rw [h] at hH
      exact absurd hH (by simp)
    · rintro ⟨_, hne⟩
      exact hne heq
  simp only [updateOrderStatus, hfind]
  rw [if_neg (not_not_intro hrole), if_neg hnot2]

/-- C2 (amended): `updateOrderStatus` applies any requested status from
the validation enum regardless of the order's current status — there is no
lifecycle check and no invalid-transition error; it fails only when the
order is missing (404) or the caller lacks permission (403). -/
theorem updateOrderStatus_applies_any (db : Db) (caller : Principal) (orderId : ℕ)
    (st : OrderStatus) (dn : Option String) (order : OrderRow)
    (hfind : db.orders.find? (fun o => decide (o.id = orderId)) = some order)
    (hperm : caller.role = .ADMIN ∨
      (caller.role = .HOTEL_ADMIN ∧ caller.hotelId = some order.hotelId)) :
    updateOrderStatus db caller orderId st dn =
      ({ db with orders := setOrder db.orders { order with
            status := st
            deliveryNotes := match dn with
              | some n => if n = "" then order.deliveryNotes else some n
              | none => order.deliveryNotes } },
        .ok { order with
            status := st
            deliveryNotes := match dn with
              | some n => if n = "" then order.deliveryNotes else some n
              | none => order.deliveryNotes }) :=
  updateOrderStatus_ok_of_perm db caller orderId st dn order hfind hperm

/-- Witness for the amended C2: the DELIVERED order of `dbDel` is moved
back to PENDING by an admin. -/
theorem updateOrderStatus_applies_any_witness :
    updateOrderStatus dbDel adminP 1 .PENDING none =
      ({ dbDel with orders := setOrder dbDel.orders { orderDel with status := .PENDING } },
        .ok { orderDel with status := .PENDING }) :=
  updateOrderStatus_applies_any dbDel adminP 1 .PENDING none orderDel rfl (.inl rfl)

/-- C10: a HOTEL_ADMIN whose `hotelId` differs from the order's hotel is
answered 403 and the state is unchanged; ADMIN callers are not subject to
the per-hotel restriction and the requested status is applied. -/
theorem updateOrderStatus_hotel_scope :
    (∀ (db : Db) (caller : Principal) (orderId : ℕ) (st : OrderStatus)
      (dn : Option String) (order : OrderRow),
      db.orders.find? (fun o => decide (o.id = orderId)) = some order →
      caller.role = .HOTEL_ADMIN → caller.hotelId ≠ some order.hotelId →
      updateOrderStatus db caller orderId st dn = (db, .forbidden)) ∧
    (∀ (db : Db) (caller : Principal) (orderId : ℕ) (st : OrderStatus)
      (dn : Option String) (order : OrderRow),
      db.orders.find? (fun o => decide (o.id = orderId)) = some order →
      caller.role = .ADMIN →
      (updateOrderStatus db caller orderId st dn).2 = .ok { order with
        status := st
        deliveryNotes := match dn with
          | some n => if n = "" then order.deliveryNotes else some n
          | none => order.deliveryNotes }) := by
  constructor
  · intro db caller orderId st dn order hfind hrole hmis
    simp only [updateOrderStatus, hfind]
    rw [if_neg (not_not_intro (.inr hrole)), if_pos ⟨hrole, hmis⟩]
  · intro db caller orderId st dn order hfind hrole
    rw [updateOrderStatus_ok_of_perm db caller orderId st dn order hfind (.inl hrole)]

/-- Witness for C10: the hotel-6 admin cannot update the hotel-5 order of
`dbDel`, while the plain admin can. -/
theorem updateOrderStatus_hotel_scope_witness :
    updateOrderStatus dbDel hotelAdminP6 1 .CONFIRMED none = (dbDel, .forbidden) ∧
    (updateOrderStatus dbDel adminP 1 .CONFIRMED none).2 =
      .ok { orderDel with status := .CONFIRMED } :=
  ⟨updateOrderStatus_hotel_scope.1 dbDel hotelAdminP6 1 .CONFIRMED none orderDel
      rfl rfl (by decide),
   updateOrderStatus_hotel_scope.2 dbDel adminP 1 .CONFIRMED none orderDel rfl rfl⟩

/-- C6 (counterexample): user 2 attempts to cancel user 1's PENDING
order; the controller answers 404 (it cannot distinguish a missing order
from a foreign or non-cancellable one), not a 403 permission denial. -/
theorem cancelOrder_nonowner_notFound :
    cancelOrder dbPend userP2 1 = (dbPend, .notFound) ∧
    cancelHttpStatus .notFound = 404 ∧ (404 : ℕ) ≠ 403 := by
  refine ⟨rfl, rfl, by decide⟩

/-- C6 (amended): `cancelOrder` succeeds exactly when the order exists,
is owned by the caller and is PENDING or CONFIRMED — there is no operator
path — and then sets status CANCELLED and paymentStatus REFUNDED; every
other attempt is answered 404 NotFound (not PermissionDenied) with the
state unchanged. -/
theorem cancelOrder_spec :
    (∀ (db : Db) (caller : Principal) (orderId : ℕ) (db2 : Db) (o : OrderRow),
      cancelOrder db caller orderId = (db2, .ok o) →
      ∃ order, db.orders.find? (fun o2 => decide (o2.id = orderId ∧
          o2.userId = caller.id ∧
          (o2.status = .PENDING ∨ o2.status = .CONFIRMED))) = some order ∧
        order.userId = caller.id ∧
        (order.status = .PENDING ∨ order.status = .CONFIRMED) ∧
        o = { order with status := .CANCELLED, paymentStatus := .REFUNDED } ∧
        db2 = { db with orders := setOrder db.orders o }) ∧
    (∀ (db : Db) (caller : Principal) (orderId : ℕ),
      (∀ order ∈ db.orders, ¬(order.id = orderId ∧ order.userId = caller.id ∧
        (order.status = .PENDING ∨ order.status = .CONFIRMED))) →
      cancelOrder db caller orderId = (db, .notFound) ∧
      cancelHttpStatus (cancelOrder db caller orderId).2 = 404) := by
  constructor
  · intro db caller orderId db2 o h
    cases hfind : db.orders.find? fun o2 => decide (o2.id = orderId ∧
        o2.userId = caller.id ∧ (o2.status = .PENDING ∨ o2.status = .CONFIRMED)) with
    | none =>
      simp only [cancelOrder, hfind] at h
      exact absurd h (by simp)
    | some order =>
      simp only [cancelOrder, hfind] at h
      injection h with h1 h2
      injection h2 with h2
      subst h1
      subst h2
      have hp0 := List.find?_some hfind
      simp only [decide_eq_true_eq] at hp0
      exact ⟨order, rfl, hp0.2.1, hp0.2.2, rfl, rfl⟩
  · intro db caller orderId hnone
    have hfind : db.orders.find? (fun o2 => decide (o2.id = orderId ∧
        o2.userId = caller.id ∧
        (o2.status = .PENDING ∨ o2.status = .CONFIRMED))) = none := by
      rw [List.find?_eq_none]
      intro x hx
      simp only [decide_eq_true_eq]
      exact hnone x hx
    constructor
    · simp only [cancelOrder, hfind]
    · simp only [cancelOrder, hfind, cancelHttpStatus]

/-- Witness for the amended C6: the owner's cancellation of the PENDING
order succeeds with status CANCELLED and paymentStatus REFUNDED. -/
theorem cancelOrder_spec_witness :
    ∃ order, dbPend.orders.find? (fun o2 => decide (o2.id = 1 ∧
        o2.userId = userP1.id ∧
        (o2.status = .PENDING ∨ o2.status = .CONFIRMED))) = some order ∧
      order.userId = userP1.id ∧
      (order.status = .PENDING ∨ order.status = .CONFIRMED) ∧
      orderPendCancelled = { order with
        status := .CANCELLED
        paymentStatus := .REFUNDED } ∧
      dbPendCancelled = { dbPend with
        orders := setOrder dbPend.orders orderPendCancelled } :=
  cancelOrder_spec.1 dbPend userP1 1 dbPendCancelled orderPendCancelled rfl

/-- C7: a review is created only for a DELIVERED order owned by the
caller; a second attempt by the same user on the same order is answered
`alreadyReviewed` with nothing written; and review insertion preserves the
at-most-one-review-per-(order, user) invariant. -/
theorem submitReview_once_delivered :
    (∀ (db : Db) (caller : Principal) (orderId : ℕ) (rating : ℤ)
      (db2 : Db) (rv : ReviewRow),
      submitReview db caller orderId rating = (db2, .created rv) →
      ∃ order, db.orders.find? (fun o => decide (o.id = orderId ∧
          o.userId = caller.id ∧ o.status = .DELIVERED)) = some order ∧
        order.status = .DELIVERED ∧ order.userId = caller.id ∧
        db2.reviews = db.reviews ++ [rv] ∧
        rv.orderId = orderId ∧ rv.userId = caller.id) ∧
    (∀ (db : Db) (caller : Principal) (orderId : ℕ) (rating : ℤ)
      (order : OrderRow) (r : ReviewRow),
      db.orders.find? (fun o => decide (o.id = orderId ∧
        o.userId = caller.id ∧ o.status = .DELIVERED)) = some order →
      r ∈ db.reviews → r.orderId = orderId → r.userId = caller.id →
      submitReview db caller orderId rating = (db, .alreadyReviewed)) ∧
    (∀ (db : Db) (caller : Principal) (orderId : ℕ) (rating : ℤ),
      uniqueReviews db.reviews →
      uniqueReviews (submitReview db caller orderId rating).1.reviews) := by
  refine ⟨?_, ?_, ?_⟩
  · intro db caller orderId rating db2 rv h
    cases hord : db.orders.find? fun o => decide (o.id = orderId ∧
        o.userId = caller.id ∧ o.status = .DELIVERED) with
    | none =>
      simp only [submitReview, hord] at h
      exact absurd h (by simp)
    | some order =>
      cases hrev : db.reviews.find? fun r => decide (r.orderId = orderId ∧
          r.userId = caller.id) with
      | some r0 =>
        simp only [submitReview, hord, hrev] at h
        exact absurd h (by simp)
      | none =>
        simp only [submitReview, hord, hrev] at h
        injection h with h1 h2
        injection h2 with h2
        subst h1
        subst h2
        have hp0 := List.find?_some hord
        simp only [decide_eq_true_eq] at hp0
        exact ⟨order, rfl, hp0.2.2, hp0.2.1, rfl, rfl, rfl⟩
  · intro db caller orderId rating order r hord hr hro hru
    cases hrev : db.reviews.find? fun r2 => decide (r2.orderId = orderId ∧
        r2.userId = caller.id) with
    | none =>
      rw [List.find?_eq_none] at hrev
      exact absurd (decide_eq_true ⟨hro, hru⟩) (hrev r hr)
    | some r0 =>
      simp only [submitReview, hord, hrev]
  · intro db caller orderId rating hu
    cases hord : db.orders.find? fun o => decide (o.id = orderId ∧
        o.userId = caller.id ∧ o.status = .DELIVERED) with
    | none =>
      simp only [submitReview, hord]
      exact hu
    | some order =>
      cases hrev : db.reviews.find? fun r => decide (r.orderId = orderId ∧
          r.userId = caller.id) with
      | some r0 =>
        simp only [submitReview, hord, hrev]
        exact hu
      | none =>
        simp only [submitReview, hord, hrev]
        rw [uniqueReviews, List.pairwise_append]
        refine ⟨hu, List.pairwise_singleton _ _, ?_⟩
        intro a ha b hb
        rw [List.mem_singleton] at hb
        subst hb
        rw [List.find?_eq_none] at hrev
        have := hrev a ha
        simp only [decide_eq_true_eq] at this
        rintro ⟨h1, h2⟩
        exact this ⟨h1, h2⟩

/-- Witness for C7: in `dbRev` user 7 already reviewed the delivered
order 1; a second attempt is rejected and writes nothing. -/
theorem submitReview_once_delivered_witness :
    submitReview dbRev userP7 1 5 = (dbRev, .alreadyReviewed) :=
  submitReview_once_delivered.2.1 dbRev userP7 1 5 orderDel reviewW rfl
    (List.mem_singleton_self _) rfl rfl

end HotelMM
